import Mathlib

/-!
Shallow embedding of the polyphonic voice orchestrator in `src/Streams.cpp`
(Mutable Instruments Streams emulation for VCV Rack).

The per-voice DSP engine lives in the header `Streams/streams.hpp`, which is
not part of this repository snapshot; its settings surface (`ui_settings`,
`ApplySettings`, `SyncUI`, `Reset`) is modelled from the spec's engine
contract (spec §6).  Everything else — the mode tables, the broadcast
mutators, persistence, the polyphony step, the brightness bookkeeping and
the reset routine — is translated directly from `Streams.cpp`.

LED intensities are C++ `float`s, but the orchestrator only copies them,
compares them with `std::max`, and writes the constants `0.f`; no rounding
arithmetic occurs, so they are modelled as rationals (`ℚ`), over which
copying, `max` and `0` behave identically.
-/

namespace StreamsSpec

/-- Modelled from the spec: the `ProcessorFunction` enumeration from the
missing header `Streams/streams.hpp`.  The spec lists six function kinds
(Envelope, Vactrol, Follower, Compressor, FilterController,
LorenzGenerator); enumerators are numbered 0..5 in declaration order as in
the C++ source's usage (`json_integer(settings.function[0])` treats them as
integers). -/
inductive ProcessorFunction where
  | ENVELOPE
  | VACTROL
  | FOLLOWER
  | COMPRESSOR
  | FILTER_CONTROLLER
  | LORENZ_GENERATOR
deriving DecidableEq, Repr

/-- The integer value of a `ProcessorFunction` enumerator (C++ default
enum numbering, declaration order). -/
def ProcessorFunction.toInt : ProcessorFunction → Int
  | .ENVELOPE => 0
  | .VACTROL => 1
  | .FOLLOWER => 2
  | .COMPRESSOR => 3
  | .FILTER_CONTROLLER => 4
  | .LORENZ_GENERATOR => 5

/-- Modelled from the spec: the `MonitorMode` enumeration from the missing
header `Streams/streams.hpp`; four values (ExciteIn, VcaCv, AudioIn,
Output), numbered 0..3 in declaration order. -/
inductive MonitorMode where
  | EXCITE_IN
  | VCA_CV
  | AUDIO_IN
  | OUTPUT
deriving DecidableEq, Repr

/-- The integer value of a `MonitorMode` enumerator. -/
def MonitorMode.toInt : MonitorMode → Int
  | .EXCITE_IN => 0
  | .VCA_CV => 1
  | .AUDIO_IN => 2
  | .OUTPUT => 3

/-- C++ `struct StreamsChannelMode` from `Streams.cpp`: a selectable channel
function/alternate pair with a display label. -/
structure StreamsChannelMode where
  function : ProcessorFunction
  alternate : Bool
  label : String
deriving DecidableEq, Repr

/-- Constant `kNumChannelModes` from `Streams.cpp`. -/
def kNumChannelModes : Nat := 10

/-- Table `kChannelModeTable` from `Streams.cpp`: the ten fixed channel modes. -/
def kChannelModeTable : List StreamsChannelMode :=
  [⟨.ENVELOPE,          false, "Envelope"⟩,
   ⟨.VACTROL,           false, "Vactrol"⟩,
   ⟨.FOLLOWER,          false, "Follower"⟩,
   ⟨.COMPRESSOR,        false, "Compressor"⟩,
   ⟨.ENVELOPE,          true,  "AR envelope"⟩,
   ⟨.VACTROL,           true,  "Plucked vactrol"⟩,
   ⟨.FOLLOWER,          true,  "Cutoff controller"⟩,
   ⟨.COMPRESSOR,        true,  "Slow compressor"⟩,
   ⟨.FILTER_CONTROLLER, true,  "Direct VCF controller"⟩,
   ⟨.LORENZ_GENERATOR,  false, "Lorenz generator"⟩]

theorem kChannelModeTable_length : kChannelModeTable.length = kNumChannelModes := rfl

/-- In-bounds lookup `kChannelModeTable[mode_id]` for a valid mode id. -/
def channelMode (mode_id : Fin kNumChannelModes) : StreamsChannelMode :=
  kChannelModeTable.get (Fin.cast kChannelModeTable_length.symm mode_id)

/-- C++ `struct StreamsMonitorMode` from `Streams.cpp`. -/
structure StreamsMonitorMode where
  mode : MonitorMode
  label : String
deriving DecidableEq, Repr

/-- Constant `kNumMonitorModes` from `Streams.cpp`. -/
def kNumMonitorModes : Nat := 4

/-- Table `kMonitorModeTable` from `Streams.cpp`: the four fixed monitor modes. -/
def kMonitorModeTable : List StreamsMonitorMode :=
  [⟨.EXCITE_IN, "Excite"⟩,
   ⟨.VCA_CV,    "Level"⟩,
   ⟨.AUDIO_IN,  "In"⟩,
   ⟨.OUTPUT,    "Out"⟩]

theorem kMonitorModeTable_length : kMonitorModeTable.length = kNumMonitorModes := rfl

/-- In-bounds lookup `kMonitorModeTable[mode_id]` for a valid mode id. -/
def monitorModeEntry (mode_id : Fin kNumMonitorModes) : StreamsMonitorMode :=
  kMonitorModeTable.get (Fin.cast kMonitorModeTable_length.symm mode_id)

/-- Modelled from the spec: `streams::UiSettings` from the missing header
`Streams/streams.hpp`.  Spec §3: function[2], alternate[2], monitor_mode,
linked; §4.6 treats all six as integer-valued fields (the source reads and
writes them with `json_integer` / `json_integer_value` and `^= 1`). -/
structure UiSettings where
  function0 : Int
  function1 : Int
  alternate0 : Int
  alternate1 : Int
  monitor_mode : Int
  linked : Int
deriving DecidableEq, Repr

/-- Selector `settings.function[channel]` as a selector on the two per-channel
function fields. -/
def UiSettings.function (s : UiSettings) : Fin 2 → Int
  | 0 => s.function0
  | 1 => s.function1

/-- Selector `settings.alternate[channel]` as a selector on the two per-channel
alternate fields. -/
def UiSettings.alternate (s : UiSettings) : Fin 2 → Int
  | 0 => s.alternate0
  | 1 => s.alternate1

/-- Assignment `settings.function[channel] = v`. -/
def UiSettings.setFunction (s : UiSettings) (channel : Fin 2) (v : Int) : UiSettings :=
  match channel with
  | 0 => { s with function0 := v }
  | 1 => { s with function1 := v }

/-- Assignment `settings.alternate[channel] = v`. -/
def UiSettings.setAlternate (s : UiSettings) (channel : Fin 2) (v : Int) : UiSettings :=
  match channel with
  | 0 => { s with alternate0 := v }
  | 1 => { s with alternate1 := v }

/-- Declaration `streams::UiSettings settings = \x7b\x7d;` — value initialization zeroes all
six fields. -/
def defaultUiSettings : UiSettings := ⟨0, 0, 0, 0, 0, 0⟩

/-- Modelled from the spec: the opaque per-voice engine
`streams::StreamsEngine` of the missing header `Streams/streams.hpp`.
Per the engine contract (spec §6) its reproducible state is the UI
settings plus continuous DSP state; the DSP state is opaque to the
orchestrator and is modelled as an abstract integer token. -/
structure StreamsEngine where
  settings : UiSettings
  dsp : Int
deriving DecidableEq, Repr

/-- Modelled from the spec: `engine.ui_settings()` — `read_settings`
returns the engine's settings verbatim. -/
def StreamsEngine.ui_settings (e : StreamsEngine) : UiSettings := e.settings

/-- Modelled from the spec: `engine.ApplySettings(s)` — `apply_settings`
writes the given settings into the engine, leaving DSP state alone. -/
def StreamsEngine.ApplySettings (e : StreamsEngine) (s : UiSettings) : StreamsEngine :=
  { e with settings := s }

/-- Modelled from the spec: `engine.SyncUI(other)` — `sync_from` copies the
full reproducible state (settings plus continuous DSP state) from the other
engine. -/
def StreamsEngine.SyncUI (_e other : StreamsEngine) : StreamsEngine := other

/-- Modelled from the spec: `engine.Reset()` reinitializes internal state. -/
def StreamsEngine.Reset (_e : StreamsEngine) : StreamsEngine := ⟨defaultUiSettings, 0⟩

/-- Constant `kNumEngines` from `Streams.cpp`: the fixed voice-array capacity. -/
def kNumEngines : Nat := 16

/-- Constant `NUM_LIGHTS` from `Streams.cpp`: sixteen physical indicators
(4 per channel × 2 channels × {green, red}). -/
def NUM_LIGHTS : Nat := 16

/-- The voice array `engine_[kNumEngines]`. -/
def EngineArray : Type := Fin 16 → StreamsEngine

namespace Streams

/-- The broadcast loop shared by every mutator in `Streams.cpp`:
`for (int c = 0; c < kNumEngines; c++) engine_[c].ApplySettings(settings);`. -/
def applySettingsAll (e : EngineArray) (s : UiSettings) : EngineArray :=
  fun c => (e c).ApplySettings s

/-- Mutator `Streams::ToggleLink`: read voice 0's settings, flip `linked` with
`^= 1`, broadcast to all sixteen voices. -/
def ToggleLink (e : EngineArray) : EngineArray :=
  let s := (e 0).ui_settings
  applySettingsAll e { s with linked := Int.xor s.linked 1 }

/-- Mutator `Streams::SetChannelMode(channel, mode_id)`: read voice 0's settings,
replace `function[channel]` and `alternate[channel]` from the channel mode
table entry, broadcast to all sixteen voices.  (The C++ `alternate` field
receives the table's `bool` by integral conversion.) -/
def SetChannelMode (channel : Fin 2) (mode_id : Fin kNumChannelModes)
    (e : EngineArray) : EngineArray :=
  let s := (e 0).ui_settings
  let s := s.setFunction channel (channelMode mode_id).function.toInt
  let s := s.setAlternate channel (if (channelMode mode_id).alternate then 1 else 0)
  applySettingsAll e s

/-- Mutator `Streams::SetMonitorMode(mode_id)`: read voice 0's settings, replace
`monitor_mode` from the monitor mode table entry, broadcast to all sixteen
voices. -/
def SetMonitorMode (mode_id : Fin kNumMonitorModes) (e : EngineArray) : EngineArray :=
  let s := (e 0).ui_settings
  applySettingsAll e { s with monitor_mode := (monitorModeEntry mode_id).mode.toInt }

end Streams

/-- The flat persisted key/value schema written by `Streams::dataToJson`:
six integer-valued keys, each possibly absent on load (partial/legacy
data). -/
structure PersistedConfig where
  function1 : Option Int
  function2 : Option Int
  alternate1 : Option Int
  alternate2 : Option Int
  monitor_mode : Option Int
  linked : Option Int
deriving DecidableEq, Repr

/-- The persisted map with all six keys absent. -/
def emptyPersisted : PersistedConfig := ⟨none, none, none, none, none, none⟩

/-- The pure serialization core of `Streams::dataToJson`: store all six
settings fields under their keys (every key present). -/
def toPersisted (s : UiSettings) : PersistedConfig :=
  { function1    := some s.function0
    function2    := some s.function1
    alternate1   := some s.alternate0
    alternate2   := some s.alternate1
    monitor_mode := some s.monitor_mode
    linked       := some s.linked }

/-- The pure deserialization core of `Streams::dataFromJson`: start from a
value-initialized (all-zero) `UiSettings` and overwrite each field only if
its key is present in the map. -/
def settingsFromJson (cfg : PersistedConfig) : UiSettings :=
  { function0    := cfg.function1.getD defaultUiSettings.function0
    function1    := cfg.function2.getD defaultUiSettings.function1
    alternate0   := cfg.alternate1.getD defaultUiSettings.alternate0
    alternate1   := cfg.alternate2.getD defaultUiSettings.alternate1
    monitor_mode := cfg.monitor_mode.getD defaultUiSettings.monitor_mode
    linked       := cfg.linked.getD defaultUiSettings.linked }

namespace Streams

/-- Export `Streams::dataToJson`: export voice 0's settings to the persisted map. -/
def dataToJson (e : EngineArray) : PersistedConfig :=
  toPersisted (e 0).ui_settings

/-- Import `Streams::dataFromJson`: decode the persisted map (missing keys keep
their defaults) and broadcast the result to all sixteen voices. -/
def dataFromJson (cfg : PersistedConfig) (e : EngineArray) : EngineArray :=
  applySettingsAll e (settingsFromJson cfg)

end Streams

/-- One mutating operation on the voice array: the three menu mutators and
the persisted-configuration load. -/
inductive MutOp where
  | toggleLink : MutOp
  | setChannelMode : Fin 2 → Fin kNumChannelModes → MutOp
  | setMonitorMode : Fin kNumMonitorModes → MutOp
  | load : PersistedConfig → MutOp

/-- Dispatch one mutating operation to its implementation in `Streams.cpp`. -/
def applyOp (op : MutOp) (e : EngineArray) : EngineArray :=
  match op with
  | .toggleLink => Streams.ToggleLink e
  | .setChannelMode channel mode_id => Streams.SetChannelMode channel mode_id e
  | .setMonitorMode mode_id => Streams.SetMonitorMode mode_id e
  | .load cfg => Streams.dataFromJson cfg e

/-- A sequence of mutating operations, applied in order. -/
def applyOps (e : EngineArray) (ops : List MutOp) : EngineArray :=
  ops.foldl (fun a op => applyOp op a) e

/-- The all-voices-identical settings invariant: every voice's
`read_settings()` equals voice 0's. -/
def allSynced (e : EngineArray) : Prop :=
  ∀ c : Fin 16, (e c).ui_settings = (e 0).ui_settings

namespace Streams

/-- The channel-count computation opening `Streams::process`:
`max(getChannels(CH1), getChannels(CH2))`, then `max(·, 1)`. -/
def computeNumChannels (ch1 ch2 : Int) : Int :=
  max (max ch1 ch2) 1

/-- The polyphony-controller step of `Streams::process`: when the count
grows, every voice index in `[prev_num_channels_, num_channels)` is synced
from voice 0; then `prev_num_channels_` becomes `num_channels`.  Returns
the updated voice array and the new `prev_num_channels_`.  (The guard
`prev ≤ c < num` is the exact iteration range of the C++ loop, which runs
only when `num > prev` and is empty otherwise.) -/
def processPolyphony (e : EngineArray) (prev num : Int) : EngineArray × Int :=
  (fun c => if prev ≤ (c : Int) ∧ (c : Int) < num
            then (e c).SyncUI (e 0) else e c,
   num)

/-- The brightness reduction loop of `Streams::process` for one indicator:
`brightness = 0; for (c = 0; c < num_channels; c++)
 brightness = max(brightness_[i][c], brightness);`
unrolled from its last iteration (`bi c` is `brightness_[i][c]`; the
out-of-range guard is vacuous whenever `num ≤ 16`). -/
def brightnessFold (bi : Fin 16 → ℚ) : Nat → ℚ
  | 0 => 0
  | n + 1 => if h : n < 16 then max (bi ⟨n, h⟩) (brightnessFold bi n)
             else brightnessFold bi n

/-- The per-voice brightness-table writes of the processing loop in
`Streams::process`: for each active voice whose engine reported
`frame.lights_updated`, column `c` of `brightness_` receives that voice's
LED intensities (`led c i`); all other entries are untouched.
`upd c` and `led c i` are the opaque engine's per-voice outputs
(modelled from the spec's engine `process` contract, §6). -/
def writeVoiceLights (b : Fin 16 → Fin 16 → ℚ) (num : Nat)
    (upd : Fin 16 → Bool) (led : Fin 16 → Fin 16 → ℚ) :
    Fin 16 → Fin 16 → ℚ :=
  fun i c => if (c : ℕ) < num ∧ upd c then led c i else b i c

/-- Accumulation `lights_updated |= frame.lights_updated`, accumulated over the active
voices: true iff some active voice reported a lights update. -/
def anyLightsUpdated (num : Nat) (upd : Fin 16 → Bool) : Bool :=
  (List.finRange 16).any (fun c => decide ((c : ℕ) < num) && upd c)

/-- The indicator-driving step closing `Streams::process`: when some voice
updated its lights this cycle, each indicator is set to the max-reduction
over active voices of the brightness table; otherwise the indicators keep
their previous values. -/
def driveLights (lights : Fin 16 → ℚ) (b : Fin 16 → Fin 16 → ℚ)
    (num : Nat) (flag : Bool) : Fin 16 → ℚ :=
  if flag then fun i => brightnessFold (fun c => b i c) num else lights

/-- The whole lights path of one `Streams::process` cycle: per-voice
brightness-table writes, the accumulated `lights_updated` flag, then the
conditional max-reduction onto the physical indicators.  Returns the new
brightness table and the new indicator values. -/
def processLights (b : Fin 16 → Fin 16 → ℚ) (lights : Fin 16 → ℚ)
    (num : Nat) (upd : Fin 16 → Bool) (led : Fin 16 → Fin 16 → ℚ) :
    (Fin 16 → Fin 16 → ℚ) × (Fin 16 → ℚ) :=
  let b' := writeVoiceLights b num upd led
  (b', driveLights lights b' num (anyLightsUpdated num upd))

end Streams

/-- Write a zero into one entry of the brightness table (`... = 0.f;`). -/
def writeZero (b : Fin 16 → Fin 16 → ℚ) (p : Fin 16 × Fin 16) :
    Fin 16 → Fin 16 → ℚ :=
  fun x y => if x = p.1 ∧ y = p.2 then 0 else b x y

/-- The brightness-zeroing loop of `Streams::onReset`:
`for (c = 0; c < kNumEngines; c++) for (i = 0; i < NUM_LIGHTS; i++)
 brightness_[c][i] = 0.f;`
— note the indices: the outer engine index `c` is used as the FIRST
subscript although the declaration is `brightness_[NUM_LIGHTS][kNumEngines]`
(first subscript = light).  The writes are transposed relative to the
declaration but stay in bounds because both dimensions are 16. -/
def resetBrightness (b : Fin 16 → Fin 16 → ℚ) : Fin 16 → Fin 16 → ℚ :=
  (List.finRange 16).foldl
    (fun acc c => (List.finRange 16).foldl
      (fun acc2 i => writeZero acc2 (c, i)) acc) b

/-- The module state touched by `Streams::onReset`: the voice array, the
brightness table `brightness_[NUM_LIGHTS][kNumEngines]` (first index =
light id, second = engine id), `prev_num_channels_`, and the physical
indicator values. -/
structure StreamsModule where
  engine_ : EngineArray
  brightness_ : Fin 16 → Fin 16 → ℚ
  prev_num_channels_ : Int
  lights : Fin 16 → ℚ

/-- Reset routine `Streams::onReset`: reset every engine, zero the brightness table via
the transposed double loop, and set `prev_num_channels_` to 1.  (The
sample-rate update it also triggers is outside the modelled state.) -/
def Streams.onReset (m : StreamsModule) : StreamsModule :=
  { engine_ := fun c => (m.engine_ c).Reset
    brightness_ := resetBrightness m.brightness_
    prev_num_channels_ := 1
    lights := m.lights }

/-! ## Helper lemmas -/

/-- Every broadcast writes the same settings value into every voice. -/
theorem applySettingsAll_ui_settings (e : EngineArray) (s : UiSettings) (c : Fin 16) :
    ((Streams.applySettingsAll e s) c).ui_settings = s := rfl

/-- Each mutating operation is a broadcast of a single settings value. -/
theorem applyOp_eq_applySettingsAll (op : MutOp) (e : EngineArray) :
    ∃ s : UiSettings, applyOp op e = Streams.applySettingsAll e s := by
  cases op with
  | toggleLink => exact ⟨_, rfl⟩
  | setChannelMode channel mode_id => exact ⟨_, rfl⟩
  | setMonitorMode mode_id => exact ⟨_, rfl⟩
  | load cfg => exact ⟨_, rfl⟩

/-- A single mutating operation re-establishes the all-voices-identical
settings invariant, whatever the starting state. -/
theorem allSynced_applyOp (op : MutOp) (e : EngineArray) :
    allSynced (applyOp op e) := by
  obtain ⟨s, hs⟩ := applyOp_eq_applySettingsAll op e
  rw [hs]
  intro c
  rfl

theorem allSynced_applyOps (ops : List MutOp) (e : EngineArray)
    (h : allSynced e) : allSynced (applyOps e ops) := by
  induction ops generalizing e with
  | nil => exact h
  | cons op rest ih => exact ih (applyOp op e) (allSynced_applyOp op e)

/-! ## Claims -/

/-- C1.  After any single mutating operation (ToggleLink, SetChannelMode,
SetMonitorMode, or dataFromJson) returns — and hence after every nonempty
sequence of such operations — every one of the sixteen voice engines holds
settings equal to voice 0's settings. -/
theorem C1_broadcast_consistency (e : EngineArray) (ops : List MutOp)
    (h : ops ≠ []) : allSynced (applyOps e ops) := by
  cases ops with
  | nil => exact absurd rfl h
  | cons op rest =>
      exact allSynced_applyOps rest (applyOp op e) (allSynced_applyOp op e)

/-- An arbitrary (deliberately unsynchronized) starting voice array used to
instantiate the claims at concrete inputs. -/
def engExample : EngineArray :=
  fun c => ⟨⟨(c : Int), 1, 0, 1, 2, 1⟩, (c : Int)⟩

theorem C1_broadcast_consistency_witness :
    allSynced (applyOps engExample [MutOp.toggleLink]) :=
  C1_broadcast_consistency engExample [MutOp.toggleLink] (by simp)

/-- C2 counterexample.  It is not true that for every pair of host-reported
channel counts the computed count is at most 16: at `getChannels()` values
17 and 1 the code computes 17 — there is no upper clamp in
`Streams::process`. -/
theorem C2_clamp_counterexample :
    ¬ (∀ ch1 ch2 : Int, 1 ≤ Streams.computeNumChannels ch1 ch2 ∧
         Streams.computeNumChannels ch1 ch2 ≤ 16) :=
  fun h => absurd (h 17 1).2 (by decide)

/-- C2 (amended).  The count computed at the start of every processing
cycle is the maximum of the two signal inputs' channel counts clamped below
at 1: it is always at least 1, and it is at most 16 whenever both
host-reported channel counts are at most 16 (which the host API guarantees);
no clamp above 16 is performed. -/
theorem C2_channel_count_clamped (ch1 ch2 : Int) :
    1 ≤ Streams.computeNumChannels ch1 ch2 ∧
      (ch1 ≤ 16 → ch2 ≤ 16 → Streams.computeNumChannels ch1 ch2 ≤ 16) := by
  unfold Streams.computeNumChannels
  constructor
  · exact le_max_right _ _
  · intro h1 h2
    exact max_le (max_le h1 h2) (by norm_num)

theorem C2_channel_count_clamped_witness :
    1 ≤ Streams.computeNumChannels 4 9 ∧ Streams.computeNumChannels 4 9 ≤ 16 :=
  ⟨(C2_channel_count_clamped 4 9).1,
   (C2_channel_count_clamped 4 9).2 (by decide) (by decide)⟩

/-- C3.  Round-tripping the persisted configuration: loading the map
produced by saving restores voice 0's settings on every voice (and the pure
decode inverts the pure encode on every settings value), and loading an
empty map (all six keys absent) yields the default-initialized settings in
which every field holds its default value. -/
theorem C3_persistence_roundtrip :
    (∀ s : UiSettings, settingsFromJson (toPersisted s) = s) ∧
      (∀ e e' : EngineArray, ∀ c : Fin 16,
        ((Streams.dataFromJson (Streams.dataToJson e) e') c).ui_settings
          = (e 0).ui_settings) ∧
      settingsFromJson emptyPersisted = defaultUiSettings :=
  ⟨fun _ => rfl, fun _ _ _ => rfl, rfl⟩

/-- C4.  When a cycle's requested voice count exceeds the previous cycle's
count, every voice index in `[prev, num)` is initialized by copying state
from voice 0, so immediately after the transition each newly activated
voice's settings equal voice 0's settings. -/
theorem C4_growth_syncs_new_voices (e : EngineArray) (prev num : Int)
    (hprev : 1 ≤ prev) (hgrow : prev < num) (hnum : num ≤ 16) :
    ∀ c : Fin 16, prev ≤ (c : Int) → (c : Int) < num →
      ((Streams.processPolyphony e prev num).1 c).ui_settings
        = ((Streams.processPolyphony e prev num).1 0).ui_settings := by
  intro c hc1 hc2
  simp only [Streams.processPolyphony, StreamsEngine.SyncUI]
  rw [if_pos ⟨hc1, hc2⟩, if_neg]
  intro h
  have h0 : ((0 : Fin 16) : Int) = 0 := rfl
  rw [h0] at h
  omega

theorem C4_growth_syncs_new_voices_witness :
    ((Streams.processPolyphony engExample 1 3).1 2).ui_settings
      = ((Streams.processPolyphony engExample 1 3).1 0).ui_settings :=
  C4_growth_syncs_new_voices engExample 1 3 (by decide) (by decide) (by decide)
    2 (by decide) (by decide)

/-- C5.  When a cycle's requested voice count is at most the previous
cycle's count, the polyphony step neither syncs nor resets any voice
engine: the voice array is returned unchanged, and the only effect is that
`prev_num_channels_` becomes the requested count. -/
theorem C5_shrink_is_noop (e : EngineArray) (prev num : Int)
    (h : num ≤ prev) :
    (Streams.processPolyphony e prev num).1 = e ∧
      (Streams.processPolyphony e prev num).2 = num := by
  constructor
  · funext c
    simp only [Streams.processPolyphony]
    rw [if_neg]
    rintro ⟨h1, h2⟩
    omega
  · rfl

theorem C5_shrink_is_noop_witness :
    (Streams.processPolyphony engExample 5 3).1 = engExample ∧
      (Streams.processPolyphony engExample 5 3).2 = 3 :=
  C5_shrink_is_noop engExample 5 3 (by decide)

/-! ## Brightness-reduction lemmas -/

theorem brightnessFold_nonneg (bi : Fin 16 → ℚ) (n : Nat) :
    0 ≤ Streams.brightnessFold bi n := by
  induction n with
  | zero => exact le_refl 0
  | succ n ih =>
      unfold Streams.brightnessFold
      split
      · exact le_trans ih (le_max_right _ _)
      · exact ih

theorem brightnessFold_le (bi : Fin 16 → ℚ) (n : Nat) (c : Fin 16)
    (hc : (c : ℕ) < n) : bi c ≤ Streams.brightnessFold bi n := by
  induction n with
  | zero => exact absurd hc (Nat.not_lt_zero _)
  | succ n ih =>
      unfold Streams.brightnessFold
      by_cases h : n < 16
      · rw [dif_pos h]
        rcases Nat.lt_succ_iff_lt_or_eq.mp hc with h' | h'
        · exact le_trans (ih h') (le_max_right _ _)
        · have hce : c = ⟨n, h⟩ := Fin.ext h'
          rw [hce]
          exact le_max_left _ _
      · rw [dif_neg h]
        have := c.isLt
        exact ih (by omega)

theorem brightnessFold_attained (bi : Fin 16 → ℚ) (n : Nat) :
    Streams.brightnessFold bi n = 0 ∨
      ∃ c : Fin 16, (c : ℕ) < n ∧ Streams.brightnessFold bi n = bi c := by
  induction n with
  | zero => exact Or.inl rfl
  | succ n ih =>
      unfold Streams.brightnessFold
      by_cases h : n < 16
      · rw [dif_pos h]
        rcases le_total (bi ⟨n, h⟩) (Streams.brightnessFold bi n) with hle | hle
        · rw [max_eq_right hle]
          rcases ih with h0 | ⟨c, hc, he⟩
          · exact Or.inl h0
          · exact Or.inr ⟨c, Nat.lt_succ_of_lt hc, he⟩
        · rw [max_eq_left hle]
          exact Or.inr ⟨⟨n, h⟩, Nat.lt_succ_self n, rfl⟩
      · rw [dif_neg h]
        rcases ih with h0 | ⟨c, hc, he⟩
        · exact Or.inl h0
        · exact Or.inr ⟨c, Nat.lt_succ_of_lt hc, he⟩

/-- C6.  In a cycle where at least one active voice reports a lights
update, the brightness reported for each of the 16 physical indicators is
the maximum, over active voice indices, of the stored per-voice intensity
for that indicator, with 0 as the base of the reduction (it bounds every
active voice's stored intensity from above and is either 0 or one of those
intensities); in particular a single voice at full intensity 1 with all
other active voices at 0 yields full brightness 1, not an average. -/
theorem C6_brightness_max_reduction (b : Fin 16 → Fin 16 → ℚ)
    (lights : Fin 16 → ℚ) (num : Nat) (upd : Fin 16 → Bool)
    (led : Fin 16 → Fin 16 → ℚ) (hnum : num ≤ 16)
    (hupd : Streams.anyLightsUpdated num upd = true) :
    ∀ i : Fin 16,
      (∀ c : Fin 16, (c : ℕ) < num →
        (Streams.processLights b lights num upd led).1 i c
          ≤ (Streams.processLights b lights num upd led).2 i) ∧
      ((Streams.processLights b lights num upd led).2 i = 0 ∨
        ∃ c : Fin 16, (c : ℕ) < num ∧
          (Streams.processLights b lights num upd led).2 i
            = (Streams.processLights b lights num upd led).1 i c) ∧
      (∀ c0 : Fin 16, (c0 : ℕ) < num →
        (Streams.processLights b lights num upd led).1 i c0 = 1 →
        (∀ c : Fin 16, (c : ℕ) < num → c ≠ c0 →
          (Streams.processLights b lights num upd led).1 i c = 0) →
        (Streams.processLights b lights num upd led).2 i = 1) := by
  intro i
  have hP1 : (Streams.processLights b lights num upd led).1
      = Streams.writeVoiceLights b num upd led := rfl
  have hP2 : (Streams.processLights b lights num upd led).2 i
      = Streams.brightnessFold
          (fun c => Streams.writeVoiceLights b num upd led i c) num := by
    simp [Streams.processLights, Streams.driveLights, hupd]
  refine ⟨?_, ?_, ?_⟩
  · intro c hc
    rw [hP1, hP2]
    exact brightnessFold_le _ num c hc
  · rw [hP1, hP2]
    exact brightnessFold_attained _ num
  · intro c0 hc0 h1 hz
    have hub : (1 : ℚ) ≤ (Streams.processLights b lights num upd led).2 i := by
      rw [hP2]
      have hle : Streams.writeVoiceLights b num upd led i c0
          ≤ Streams.brightnessFold
              (fun c => Streams.writeVoiceLights b num upd led i c) num :=
        brightnessFold_le _ num c0 hc0
      rw [hP1] at h1
      rw [h1] at hle
      exact hle
    rcases brightnessFold_attained
        (fun c => Streams.writeVoiceLights b num upd led i c) num with h0 | ⟨c, hc, he⟩
    · rw [hP2, h0] at hub
      linarith
    · by_cases hcc : c = c0
      · rw [hP2, he, hcc]
        rw [hP1] at h1
        exact h1
      · have hzc := hz c hc hcc
        rw [hP1] at hzc
        rw [hP2, he, hzc] at hub
        linarith

/-- Concrete brightness table used to instantiate the lights claims. -/
def bEx : Fin 16 → Fin 16 → ℚ := fun i c => (i : ℚ) + (c : ℚ)

/-- Concrete previous indicator values used to instantiate the lights
claims. -/
def lightsEx : Fin 16 → ℚ := fun i => (i : ℚ)

/-- Concrete per-voice lights-updated flags: only voice 0 reports an
update. -/
def updEx : Fin 16 → Bool := fun c => c == 0

/-- Concrete per-voice LED intensities: voice 0 at full intensity, all
others dark. -/
def ledEx : Fin 16 → Fin 16 → ℚ := fun c _ => if c = 0 then 1 else 0

theorem C6_brightness_max_reduction_witness :
    (∀ c : Fin 16, (c : ℕ) < 4 →
      (Streams.processLights bEx lightsEx 4 updEx ledEx).1 0 c
        ≤ (Streams.processLights bEx lightsEx 4 updEx ledEx).2 0) ∧
    ((Streams.processLights bEx lightsEx 4 updEx ledEx).2 0 = 0 ∨
      ∃ c : Fin 16, (c : ℕ) < 4 ∧
        (Streams.processLights bEx lightsEx 4 updEx ledEx).2 0
          = (Streams.processLights bEx lightsEx 4 updEx ledEx).1 0 c) ∧
    (∀ c0 : Fin 16, (c0 : ℕ) < 4 →
      (Streams.processLights bEx lightsEx 4 updEx ledEx).1 0 c0 = 1 →
      (∀ c : Fin 16, (c : ℕ) < 4 → c ≠ c0 →
        (Streams.processLights bEx lightsEx 4 updEx ledEx).1 0 c = 0) →
      (Streams.processLights bEx lightsEx 4 updEx ledEx).2 0 = 1) :=
  C6_brightness_max_reduction bEx lightsEx 4 updEx ledEx
    (by decide) (by decide) 0

/-- C7.  If during a processing cycle no active voice sets the
lights-updated flag, the lights path writes nothing: the brightness table
and all 16 physical indicators retain the values they held at the end of
the previous cycle. -/
theorem C7_no_update_keeps_lights (b : Fin 16 → Fin 16 → ℚ)
    (lights : Fin 16 → ℚ) (num : Nat) (upd : Fin 16 → Bool)
    (led : Fin 16 → Fin 16 → ℚ)
    (h : ∀ c : Fin 16, (c : ℕ) < num → upd c = false) :
    (Streams.processLights b lights num upd led).1 = b ∧
      (Streams.processLights b lights num upd led).2 = lights := by
  have hb : Streams.writeVoiceLights b num upd led = b := by
    funext i c
    unfold Streams.writeVoiceLights
    rw [if_neg]
    rintro ⟨h1, h2⟩
    have := h c h1
    rw [this] at h2
    exact Bool.false_ne_true h2
  have hflag : Streams.anyLightsUpdated num upd = false := by
    unfold Streams.anyLightsUpdated
    rw [List.any_eq_false]
    intro c _
    by_cases hc : (c : ℕ) < num
    · simp [h c hc]
    · simp [hc]
  constructor
  · exact hb
  · show Streams.driveLights lights (Streams.writeVoiceLights b num upd led)
      num (Streams.anyLightsUpdated num upd) = lights
    rw [hflag]
    unfold Streams.driveLights
    simp

/-- Concrete per-voice lights-updated flags: no voice reports an update. -/
def updNone : Fin 16 → Bool := fun _ => false

theorem C7_no_update_keeps_lights_witness :
    (Streams.processLights bEx lightsEx 3 updNone ledEx).1 = bEx ∧
      (Streams.processLights bEx lightsEx 3 updNone ledEx).2 = lightsEx :=
  C7_no_update_keeps_lights bEx lightsEx 3 updNone ledEx (by decide)

/-- C8.  Each convenience mutator changes exactly its target fields of the
canonical (voice 0) settings before broadcasting: ToggleLink replaces
`linked` by its negation (the `^= 1` flip, which is `1 - linked` on the
boolean values 0 and 1) and leaves both channels' function and alternate
fields and the monitor mode unchanged; SetChannelMode replaces the chosen
channel's function and alternate with the channel-mode table entry's values
and leaves the other channel's fields, the monitor mode and the link flag
unchanged; SetMonitorMode replaces the monitor mode with the monitor-mode
table entry's value and leaves all other fields unchanged. -/
theorem C8_mutators_change_exactly_targets (e : EngineArray) :
    (((e 0).ui_settings.linked = 0 ∨ (e 0).ui_settings.linked = 1) →
      ((Streams.ToggleLink e) 0).ui_settings.linked
        = 1 - (e 0).ui_settings.linked) ∧
    (∀ j : Fin 2,
      ((Streams.ToggleLink e) 0).ui_settings.function j
          = (e 0).ui_settings.function j ∧
        ((Streams.ToggleLink e) 0).ui_settings.alternate j
          = (e 0).ui_settings.alternate j) ∧
    ((Streams.ToggleLink e) 0).ui_settings.monitor_mode
        = (e 0).ui_settings.monitor_mode ∧
    (∀ (channel : Fin 2) (mode_id : Fin kNumChannelModes) (j : Fin 2),
      ((Streams.SetChannelMode channel mode_id e) 0).ui_settings.function j
          = (if j = channel then (channelMode mode_id).function.toInt
             else (e 0).ui_settings.function j) ∧
        ((Streams.SetChannelMode channel mode_id e) 0).ui_settings.alternate j
          = (if j = channel then (if (channelMode mode_id).alternate then 1 else 0)
             else (e 0).ui_settings.alternate j)) ∧
    (∀ (channel : Fin 2) (mode_id : Fin kNumChannelModes),
      ((Streams.SetChannelMode channel mode_id e) 0).ui_settings.monitor_mode
          = (e 0).ui_settings.monitor_mode ∧
        ((Streams.SetChannelMode channel mode_id e) 0).ui_settings.linked
          = (e 0).ui_settings.linked) ∧
    (∀ mode_id : Fin kNumMonitorModes,
      ((Streams.SetMonitorMode mode_id e) 0).ui_settings.monitor_mode
          = (monitorModeEntry mode_id).mode.toInt ∧
        ((Streams.SetMonitorMode mode_id e) 0).ui_settings.linked
          = (e 0).ui_settings.linked ∧
        ∀ j : Fin 2,
          ((Streams.SetMonitorMode mode_id e) 0).ui_settings.function j
              = (e 0).ui_settings.function j ∧
            ((Streams.SetMonitorMode mode_id e) 0).ui_settings.alternate j
              = (e 0).ui_settings.alternate j) := by
  refine ⟨?_, ?_, rfl, ?_, ?_, fun _ => ⟨rfl, rfl, ?_⟩⟩
  · rintro (h0 | h1)
    · show Int.xor (e 0).ui_settings.linked 1 = 1 - (e 0).ui_settings.linked
      rw [h0]
      decide
    · show Int.xor (e 0).ui_settings.linked 1 = 1 - (e 0).ui_settings.linked
      rw [h1]
      decide
  · intro j
    fin_cases j <;> exact ⟨rfl, rfl⟩
  · intro channel mode_id j
    fin_cases channel <;> fin_cases j <;>
      simp [Streams.SetChannelMode, Streams.applySettingsAll,
        StreamsEngine.ApplySettings, StreamsEngine.ui_settings,
        UiSettings.setFunction, UiSettings.setAlternate,
        UiSettings.function, UiSettings.alternate]
  · intro channel mode_id
    fin_cases channel <;> exact ⟨rfl, rfl⟩
  · intro j
    fin_cases j <;> exact ⟨rfl, rfl⟩

theorem C8_mutators_change_exactly_targets_witness :
    ((Streams.ToggleLink engExample) 0).ui_settings.linked
      = 1 - (engExample 0).ui_settings.linked :=
  (C8_mutators_change_exactly_targets engExample).1 (Or.inr rfl)

/-- C9.  Under the stated preconditions every table and array access is in
bounds: a channel-mode id in `[0, kNumChannelModes)` indexes inside
`kChannelModeTable`, a monitor-mode id in `[0, kNumMonitorModes)` indexes
inside `kMonitorModeTable`, a channel in `{0, 1}` indexes inside the
two-element function/alternate arrays, a voice index below a computed
count of at most `kNumEngines` indexes inside the engine array, and a
light/voice pair below `NUM_LIGHTS`/`kNumEngines` indexes inside the
brightness table; the (total) operations perform no runtime bounds check
and report no error. -/
theorem C9_preconditions_give_in_bounds :
    (∀ mode_id : Int, 0 ≤ mode_id → mode_id < (kNumChannelModes : Int) →
      mode_id.toNat < kChannelModeTable.length) ∧
    (∀ mode_id : Int, 0 ≤ mode_id → mode_id < (kNumMonitorModes : Int) →
      mode_id.toNat < kMonitorModeTable.length) ∧
    (∀ channel : Int, (channel = 0 ∨ channel = 1) → channel.toNat < 2) ∧
    (∀ c num : Int, 0 ≤ c → c < num → num ≤ (kNumEngines : Int) →
      c.toNat < kNumEngines) ∧
    (∀ i c : Int, 0 ≤ i → i < (NUM_LIGHTS : Int) → 0 ≤ c →
      c < (kNumEngines : Int) → i.toNat < NUM_LIGHTS ∧ c.toNat < kNumEngines) := by
  refine ⟨?_, ?_, ?_, ?_, ?_⟩
  · intro mode_id h0 h1
    rw [kChannelModeTable_length]
    unfold kNumChannelModes at *
    omega
  · intro mode_id h0 h1
    rw [kMonitorModeTable_length]
    unfold kNumMonitorModes at *
    omega
  · intro channel h
    rcases h with h | h <;> rw [h] <;> decide
  · intro c num h0 h1 h2
    unfold kNumEngines at *
    omega
  · intro i c h0 h1 h2 h3
    unfold NUM_LIGHTS kNumEngines at *
    omega

theorem C9_preconditions_give_in_bounds_witness :
    (3 : Int).toNat < kChannelModeTable.length ∧
      (2 : Int).toNat < kMonitorModeTable.length ∧
      (1 : Int).toNat < 2 ∧
      (7 : Int).toNat < kNumEngines ∧
      ((15 : Int).toNat < NUM_LIGHTS ∧ (9 : Int).toNat < kNumEngines) :=
  ⟨C9_preconditions_give_in_bounds.1 3 (by decide) (by decide),
   C9_preconditions_give_in_bounds.2.1 2 (by decide) (by decide),
   C9_preconditions_give_in_bounds.2.2.1 1 (Or.inr rfl),
   C9_preconditions_give_in_bounds.2.2.2.1 7 16 (by decide) (by decide) (by decide),
   C9_preconditions_give_in_bounds.2.2.2.2 15 9 (by decide) (by decide)
     (by decide) (by decide)⟩

/-! ## Reset lemmas -/

theorem innerFold_pres (M : List (Fin 16)) (b : Fin 16 → Fin 16 → ℚ)
    (c x y : Fin 16) (h : b x y = 0) :
    (M.foldl (fun a i => writeZero a (c, i)) b) x y = 0 := by
  induction M generalizing b with
  | nil => exact h
  | cons a M ih =>
      apply ih
      show (if x = c ∧ y = a then 0 else b x y) = 0
      split
      · rfl
      · exact h

theorem innerFold_hit (M : List (Fin 16)) (b : Fin 16 → Fin 16 → ℚ)
    (c y : Fin 16) (hy : y ∈ M) :
    (M.foldl (fun a i => writeZero a (c, i)) b) c y = 0 := by
  induction M generalizing b with
  | nil => cases hy
  | cons a M ih =>
      rcases List.mem_cons.mp hy with rfl | hy'
      · rw [List.foldl_cons]
        apply innerFold_pres
        show (if c = c ∧ y = y then 0 else b c y) = 0
        rw [if_pos ⟨rfl, rfl⟩]
      · exact ih _ hy'

theorem outerFold_pres (L : List (Fin 16)) (b : Fin 16 → Fin 16 → ℚ)
    (x y : Fin 16) (h : b x y = 0) :
    (L.foldl (fun acc c => (List.finRange 16).foldl
      (fun a i => writeZero a (c, i)) acc) b) x y = 0 := by
  induction L generalizing b with
  | nil => exact h
  | cons a L ih => exact ih _ (innerFold_pres _ _ _ _ _ h)

theorem outerFold_hit (L : List (Fin 16)) (b : Fin 16 → Fin 16 → ℚ)
    (x y : Fin 16) (hx : x ∈ L) :
    (L.foldl (fun acc c => (List.finRange 16).foldl
      (fun a i => writeZero a (c, i)) acc) b) x y = 0 := by
  induction L generalizing b with
  | nil => cases hx
  | cons a L ih =>
      rcases List.mem_cons.mp hx with rfl | hx'
      · exact outerFold_pres L _ x y
          (innerFold_hit (List.finRange 16) b x y (List.mem_finRange y))
      · exact ih _ hx'

/-- The transposed double loop of `Streams::onReset` zeroes every entry of
the 16-by-16 brightness table. -/
theorem resetBrightness_zero (b : Fin 16 → Fin 16 → ℚ) (x y : Fin 16) :
    resetBrightness b x y = 0 :=
  outerFold_hit _ b x y (List.mem_finRange x)

/-- C10.  After `onReset` returns, `prev_num_channels_` equals 1 and every
entry of the 16-by-16 brightness table equals 0: the reset loop's writes
are transposed relative to the declaration (`brightness_[c][i]` with `c`
over engines and `i` over lights), but since both dimensions equal 16 they
stay in bounds and cover every element. -/
theorem C10_onReset_state (m : StreamsModule) :
    (Streams.onReset m).prev_num_channels_ = 1 ∧
      ∀ x y : Fin 16, (Streams.onReset m).brightness_ x y = 0 :=
  ⟨rfl, fun x y => resetBrightness_zero m.brightness_ x y⟩

end StreamsSpec
